import Mathlib

/-!
Verification of the `Examples/torch/quantization/cle_bc.ipynb` notebook
(cross-layer equalization and bias correction example).

The notebook is straight-line code: it builds a configuration dictionary,
defines a thin evaluation wrapper class (`ImageNetDataPipeline`), loads a
pretrained resnet18, and then sequences calls into external libraries
(torch, torchvision, and the aimet quantization toolkit).  We embed it
shallowly: external library behaviour is supplied by an environment of
functions returning `Except` (so that external failures are explicit
values), model objects live in a heap indexed by references (so that
in-place mutation and object identity are observable), and the execution
produces a trace of events recording every external call the notebook
makes, in order.
-/

/-- Abstract contents of a torch model object (`torch.nn.Module`).  The
model itself is external to the repository; we only track its value
abstractly so that in-place mutations by external transforms are visible. -/
abbrev ModelVal := Nat

/-- Abstract scalar accuracy returned by the external evaluator. -/
abbrev Score := Int

/-- A Python exception, identified by its message. -/
abbrev Err := String

/-- Heap reference identifying a Python object (identity, not value). -/
abbrev Ref := Nat

/-- A device a tensor or module can live on. -/
inductive Device : Type
  | cpu : Device
  | cuda : Device
deriving DecidableEq, Repr

/-- The notebook's configuration dictionary (cell 5): dataset directory,
CUDA flag and logging directory. -/
structure Config : Type where
  dataset_dir : String
  use_cuda : Bool
  logdir : String
deriving DecidableEq, Repr

/-- The literal configuration dictionary built in cell 5 of the notebook,
with the timestamp part of the log directory abstracted as `now`
(`datetime.now().strftime(...)` is an external effect). -/
def notebookConfig (now : String) : Config :=
  { dataset_dir := "path/to/dataset"
    use_cuda := true
    logdir := "benchmark_output" ++ "/" ++ ("cle_bc_" ++ now) }

/-- Modelled from the spec: the fixed image/batch/worker settings imported
from `Examples.common.image_net_config`, a repository module that is not
under `src/`.  The claims depend only on these being fixed constants, not
on their numeric values. -/
structure ImageNetSettings : Type where
  image_size : Nat
  batch_size : Nat
  num_workers : Nat
deriving DecidableEq, Repr

/-- Modelled from the spec: the concrete constant settings object
(`image_net_config.dataset['image_size']`,
`image_net_config.evaluation['batch_size']`,
`image_net_config.evaluation['num_workers']`). -/
def image_net_config : ImageNetSettings :=
  { image_size := 224, batch_size := 32, num_workers := 8 }

/-- The constructor arguments of the external `ImageNetEvaluator`
(`Examples/torch/utils/image_net_evaluator.py`, not under `src/`). -/
structure EvalArgs : Type where
  images_dir : String
  image_size : Nat
  batch_size : Nat
  num_workers : Nat
deriving DecidableEq, Repr

/-- Environment of external library behaviours.  Each field models one
kind of external call the notebook makes; a call either returns a value or
raises an exception (`Except.error`).  The transforms on models
(`fold_all_batch_norms`, `equalize_model`, `correct_bias`) are modelled as
value transformers; where the notebook applies them in place, `run` below
writes the result back to the same heap reference. -/
structure Env : Type where
  /-- Whether `torch.cuda.is_available()` reports an accelerator. -/
  cuda_available : Bool
  /-- The value of the pretrained resnet18 loaded by `resnet18(pretrained=True)`. -/
  pretrained : ModelVal
  /-- `os.makedirs(path, exist_ok=True)`. -/
  makedirsF : String → Except Err Unit
  /-- Modelled from the spec: construction of the external `ImageNetEvaluator`
  (its Python source is not under `src/`); construction may itself raise. -/
  evaluatorConstructF : EvalArgs → Except Err Unit
  /-- Modelled from the spec: `ImageNetEvaluator.evaluate(model, iterations,
  use_cuda)`, the external evaluation returning a scalar accuracy. -/
  evaluateF : EvalArgs → ModelVal → Option Nat → Bool → Except Err Score
  /-- Modelled from the spec: construction of the external
  `ImageNetDataLoader` by `ImageNetDataPipeline.data_loader`. -/
  dataLoaderF : String → Except Err Unit
  /-- `fold_all_batch_norms(m, input_shapes=...)`: in-place batch-norm
  folding, modelled as the transform applied to the target object's value. -/
  foldF : ModelVal → Except Err ModelVal
  /-- Modelled from the spec: `QuantizationSimModel(model=m, ...)`
  constructs a simulation wrapper around a copy of `m` (`in_place=False`,
  as the notebook passes explicitly at its last use); the result is the
  value of the wrapper's internal `.model`. -/
  simModelF : ModelVal → Except Err ModelVal
  /-- `quantizer.compute_encodings(...)` on a simulation wrapper whose
  internal model has the given value. -/
  computeEncF : ModelVal → Except Err Unit
  /-- `equalize_model(m, input_shapes=...)`: in-place cross-layer
  equalization, modelled as the transform applied to the object's value. -/
  equalizeF : ModelVal → Except Err ModelVal
  /-- `correct_bias(m, bc_params, num_quant_samples, data_loader,
  num_bias_correct_samples)`: in-place bias correction. -/
  correctBiasF : ModelVal → Nat → Nat → Except Err ModelVal
  /-- `torch.save(model, path)`. -/
  saveF : ModelVal → String → Except Err Unit

/-- The evaluator-constructor arguments `ImageNetDataPipeline.evaluate`
uses: the pipeline's configured dataset directory together with the fixed
`image_net_config` settings. -/
def evalArgsOf (cfg : Config) : EvalArgs :=
  { images_dir := cfg.dataset_dir
    image_size := image_net_config.image_size
    batch_size := image_net_config.batch_size
    num_workers := image_net_config.num_workers }

/-- The notebook's `ImageNetDataPipeline` class: its only attribute is the
configuration dictionary stored by `__init__`. -/
structure ImageNetDataPipeline : Type where
  _config : Config
deriving DecidableEq, Repr

/-- `ImageNetDataPipeline.evaluate(model, iterations=None, use_cuda=False)`:
constructs an `ImageNetEvaluator` from the configured dataset directory and
the fixed `image_net_config` settings, then returns exactly
`evaluator.evaluate(model, iterations, use_cuda)`. -/
def ImageNetDataPipeline.evaluate (ext : Env) (p : ImageNetDataPipeline)
    (model : ModelVal) (iterations : Option Nat) (use_cuda : Bool) :
    Except Err Score := do
  let args := evalArgsOf p._config
  let _ ← ext.evaluatorConstructF args
  ext.evaluateF args model iterations use_cuda

/-- `ImageNetDataPipeline.data_loader()`: constructs an external
`ImageNetDataLoader` from the configured dataset directory. -/
def ImageNetDataPipeline.data_loader (ext : Env) (p : ImageNetDataPipeline) :
    Except Err Unit :=
  ext.dataLoaderF p._config.dataset_dir

/-- The exception message raised by the model-setup cell. -/
def cudaUnavailableMsg : Err := "use_cuda is True but cuda is unavailable"

/-- The `use_cuda` guard of the model-setup cell (cell 10):

```
if config['use_cuda']:
    if torch.cuda.is_available():
        model.to(torch.device('cuda'))
    else:
        raise Exception("use_cuda is True but cuda is unavailable")
```

Returns the device the model ends up on, or the raised exception. -/
def modelSetup (cuda_available use_cuda : Bool) : Except Err Device :=
  if use_cuda then
    if cuda_available then Except.ok Device.cuda
    else Except.error cudaUnavailableMsg
  else Except.ok Device.cpu

/-- The quantization parameters cell (cell 12): the "Typical" value of
`num_batches` is commented out and the "Test" value is active. -/
def num_batches : Nat := 1

/-- The bias-correction parameter cell (cell 20): both variables are
assigned the "Typical" value 16 and then unconditionally reassigned the
"Test" value 1; the pair returned is
`(num_quant_samples, num_bias_correct_samples)` as they stand when
`correct_bias` is called. -/
def biasCorrectionParams : Nat × Nat :=
  let num_quant_samples := 16
  let num_bias_correct_samples := 16
  let num_quant_samples := 1
  let num_bias_correct_samples := 1
  (num_quant_samples, num_bias_correct_samples)

/-- Identity of an object a `.to(torch.device('cuda'))` call targets:
either a model object in the heap or one of the three `dummy_input`
tensors (numbered in order of creation). -/
inductive ObjId : Type
  | modelObj : Ref → ObjId
  | tensorObj : Nat → ObjId
deriving DecidableEq, Repr

/-- One observable step of the notebook: every external call it makes, in
particular every call that moves data, mutates a model, touches the
filesystem, or evaluates. -/
inductive Event : Type
  | makeDirs : String → Bool → Event
  | loadModel : Ref → Event
  | toCuda : ObjId → Event
  | evalModeSet : Ref → Event
  | evalCall : Ref → Option Nat → Bool → Event
  | newTensor : Nat → Event
  | deepcopy : Ref → Ref → Event
  | foldBN : Ref → Event
  | constructSim : Ref → Nat → Bool → Event
  | computeEnc : Nat → Nat → Event
  | equalize : Ref → Event
  | dataLoaderCall : String → Event
  | correctBias : Ref → Nat → Nat → Event
  | save : Ref → String → Event
deriving DecidableEq, Repr

/-- The heap mapping references to model values. -/
abbrev Heap := Ref → ModelVal

/-- Update one reference of the heap. -/
def upd (h : Heap) (r : Ref) (v : ModelVal) : Heap :=
  fun r' => if r' = r then v else h r'

/-- Result of a complete, successful notebook execution. -/
structure RunOut : Type where
  trace : List Event
  heap : Heap
  modelDevice : Device
  accFP : Score
  accSim : Score
  accCLE : Score
  accBC : Score

/-- The heap reference of the name `model` (allocated by the load cell). -/
def modelRef : Ref := 0

/-- The heap reference of `BN_folded_model` (allocated by `copy.deepcopy`). -/
def bnFoldedRef : Ref := 1

/-- The heap reference of `quantizer.model`. -/
def sim0Ref : Ref := 2

/-- The heap reference of `cle_quantizer.model`. -/
def sim1Ref : Ref := 3

/-- The heap reference of `bc_quantizer.model`. -/
def sim2Ref : Ref := 4

/-- The path of the checkpoint written by the final cell:
`os.path.join(config['logdir'], 'quantized_model.pth')`.  `os.path.join`
inserts a separator unless the first component already ends in one (the
second component here is the relative literal `'quantized_model.pth'`). -/
def osPathJoin (a b : String) : String :=
  if a.endsWith "/" then a ++ b else a ++ "/" ++ b

/-- The complete notebook execution, top to bottom, over external
behaviours `ext` and configuration `cfg` (cell 5 builds `notebookConfig`,
which the user edits; the claims quantify over the dictionary's
contents).  Straight-line `Except`-chaining: the notebook contains no
`try`/`except`, so the first external exception aborts the run.  The trace
records every external call in program order. -/
def run (ext : Env) (cfg : Config) : Except Err RunOut := do
  -- cell 5: os.makedirs(config['logdir'], exist_ok=True)
  let _ ← ext.makedirsF cfg.logdir
  let dp : ImageNetDataPipeline := { _config := cfg }
  -- cell 10: model = resnet18(pretrained=True); use_cuda guard; model.eval()
  let h0 : Heap := upd (fun _ => 0) modelRef ext.pretrained
  let mdev ← modelSetup ext.cuda_available cfg.use_cuda
  let accFP ← dp.evaluate ext (h0 modelRef) none cfg.use_cuda
  -- cell 14: dummy_input, BN_folded_model = copy.deepcopy(model),
  -- fold_all_batch_norms, QuantizationSimModel, compute_encodings, evaluate
  let h1 : Heap := upd h0 bnFoldedRef (h0 modelRef)
  let bn ← ext.foldF (h1 bnFoldedRef)
  let h2 : Heap := upd h1 bnFoldedRef bn
  let s0 ← ext.simModelF (h2 bnFoldedRef)
  let h3 : Heap := upd h2 sim0Ref s0
  let _ ← ext.computeEncF (h3 sim0Ref)
  let accSim ← dp.evaluate ext (h3 sim0Ref) none false
  -- cell 16: equalize_model(model, input_shapes=(1, 3, 224, 224))
  let eq ← ext.equalizeF (h3 modelRef)
  let h4 : Heap := upd h3 modelRef eq
  -- cell 18: dummy_input, cle_quantizer, compute_encodings, evaluate
  let s1 ← ext.simModelF (h4 modelRef)
  let h5 : Heap := upd h4 sim1Ref s1
  let _ ← ext.computeEncF (h5 sim1Ref)
  let accCLE ← dp.evaluate ext (h5 sim1Ref) none false
  -- cell 22: data_loader, bc_params, correct_bias(model, ...)
  let _ ← dp.data_loader ext
  let bc ← ext.correctBiasF (h5 modelRef) biasCorrectionParams.1 biasCorrectionParams.2
  let h6 : Heap := upd h5 modelRef bc
  -- cell 24: dummy_input, bc_quantizer (in_place=False), compute_encodings,
  -- evaluate, torch.save(model, os.path.join(config['logdir'], 'quantized_model.pth'))
  let s2 ← ext.simModelF (h6 modelRef)
  let h7 : Heap := upd h6 sim2Ref s2
  let _ ← ext.computeEncF (h7 sim2Ref)
  let accBC ← dp.evaluate ext (h7 sim2Ref) none false
  let savePath := osPathJoin cfg.logdir "quantized_model.pth"
  let _ ← ext.saveF (h7 modelRef) savePath
  let cudaMoves : List Event :=
    if cfg.use_cuda then [Event.toCuda (ObjId.modelObj modelRef)] else []
  let tMoves : Nat → List Event := fun i =>
    if cfg.use_cuda then [Event.toCuda (ObjId.tensorObj i)] else []
  Except.ok
    { trace :=
        [Event.makeDirs cfg.logdir true, Event.loadModel modelRef]
        ++ cudaMoves
        ++ [Event.evalModeSet modelRef,
            Event.evalCall modelRef none cfg.use_cuda,
            Event.newTensor 0]
        ++ tMoves 0
        ++ [Event.deepcopy modelRef bnFoldedRef,
            Event.foldBN bnFoldedRef,
            Event.constructSim bnFoldedRef 0 false,
            Event.computeEnc 0 num_batches,
            Event.evalCall sim0Ref none false,
            Event.equalize modelRef,
            Event.newTensor 1]
        ++ tMoves 1
        ++ [Event.constructSim modelRef 1 false,
            Event.computeEnc 1 num_batches,
            Event.evalCall sim1Ref none false,
            Event.dataLoaderCall cfg.dataset_dir,
            Event.correctBias modelRef biasCorrectionParams.1 biasCorrectionParams.2,
            Event.newTensor 2]
        ++ tMoves 2
        ++ [Event.constructSim modelRef 2 false,
            Event.computeEnc 2 num_batches,
            Event.evalCall sim2Ref none false,
            Event.save modelRef savePath]
      heap := h7
      modelDevice := mdev
      accFP := accFP
      accSim := accSim
      accCLE := accCLE
      accBC := accBC }

/-- The trace of a successful run, if any. -/
def runTrace (ext : Env) (cfg : Config) : Option (List Event) :=
  (run ext cfg).toOption.map RunOut.trace

/-- The event trace of a successful top-to-bottom execution of the
notebook with configuration `cfg` (it depends only on the configuration:
event payloads are references, paths and literal parameters, never
external return values). -/
def canonicalTrace (cfg : Config) : List Event :=
  [Event.makeDirs cfg.logdir true, Event.loadModel modelRef]
  ++ (if cfg.use_cuda then [Event.toCuda (ObjId.modelObj modelRef)] else [])
  ++ [Event.evalModeSet modelRef,
      Event.evalCall modelRef none cfg.use_cuda,
      Event.newTensor 0]
  ++ (if cfg.use_cuda then [Event.toCuda (ObjId.tensorObj 0)] else [])
  ++ [Event.deepcopy modelRef bnFoldedRef,
      Event.foldBN bnFoldedRef,
      Event.constructSim bnFoldedRef 0 false,
      Event.computeEnc 0 num_batches,
      Event.evalCall sim0Ref none false,
      Event.equalize modelRef,
      Event.newTensor 1]
  ++ (if cfg.use_cuda then [Event.toCuda (ObjId.tensorObj 1)] else [])
  ++ [Event.constructSim modelRef 1 false,
      Event.computeEnc 1 num_batches,
      Event.evalCall sim1Ref none false,
      Event.dataLoaderCall cfg.dataset_dir,
      Event.correctBias modelRef biasCorrectionParams.1 biasCorrectionParams.2,
      Event.newTensor 2]
  ++ (if cfg.use_cuda then [Event.toCuda (ObjId.tensorObj 2)] else [])
  ++ [Event.constructSim modelRef 2 false,
      Event.computeEnc 2 num_batches,
      Event.evalCall sim2Ref none false,
      Event.save modelRef (osPathJoin cfg.logdir "quantized_model.pth")]

/-- Whatever the external behaviours, a successful run produces exactly
the canonical trace for its configuration. -/
theorem run_ok_trace (ext : Env) (cfg : Config) (r : RunOut)
    (h : run ext cfg = Except.ok r) : r.trace = canonicalTrace cfg := by
  unfold run at h
  simp only [bind, Except.bind, ImageNetDataPipeline.evaluate,
    ImageNetDataPipeline.data_loader, modelSetup] at h
  repeat' split at h
  all_goals try exact Except.noConfusion h
  all_goals injection h with h
  all_goals subst h
  all_goals simp [canonicalTrace, *]

/-- Whatever the external behaviours, a successful run produces exactly
the canonical trace for its configuration (`runTrace` form). -/
theorem runTrace_some (ext : Env) (cfg : Config) (tr : List Event)
    (h : runTrace ext cfg = some tr) : tr = canonicalTrace cfg := by
  unfold runTrace at h
  cases hr : run ext cfg with
  | error e => rw [hr] at h; simp [Except.toOption] at h
  | ok r =>
    rw [hr] at h
    simp [Except.toOption] at h
    rw [← h]
    exact run_ok_trace ext cfg r hr

/-- A concrete external environment in which every call succeeds; the
evaluator's answer depends on the dataset directory it was constructed
with, as a real evaluator's does. -/
def extOk : Env :=
  { cuda_available := true
    pretrained := 5
    makedirsF := fun _ => Except.ok ()
    evaluatorConstructF := fun _ => Except.ok ()
    evaluateF := fun a m _ uc =>
      Except.ok (Int.ofNat (m + (if a.images_dir = "a" then 1 else 2)
        + (if uc then 1 else 0)))
    dataLoaderF := fun _ => Except.ok ()
    foldF := fun m => Except.ok (m + 1)
    simModelF := fun m => Except.ok (m + 2)
    computeEncF := fun _ => Except.ok ()
    equalizeF := fun m => Except.ok (m + 3)
    correctBiasF := fun m a b => Except.ok (m + a + b)
    saveF := fun _ _ => Except.ok () }

/-- A concrete configuration for witnesses. -/
def cfg0 : Config :=
  { dataset_dir := "d", use_cuda := true, logdir := "log" }

/-- C1: during model setup, an exception is raised if and only if
`config['use_cuda']` is true and no CUDA accelerator is available; when
`use_cuda` is false the guard does not raise and the model stays on the
CPU, and when `use_cuda` is true and CUDA is available it does not raise
and the model is moved to the GPU. -/
theorem modelSetup_raises_iff (ca uc : Bool) :
    ((∃ e, modelSetup ca uc = Except.error e) ↔ uc = true ∧ ca = false)
    ∧ (uc = true → ca = true → modelSetup ca uc = Except.ok Device.cuda)
    ∧ (uc = false → modelSetup ca uc = Except.ok Device.cpu) := by
  cases ca <;> cases uc <;> simp [modelSetup, cudaUnavailableMsg]

/-- Witness for C1 at concrete inputs: the guard raises when CUDA is
requested but unavailable, moves to GPU when available, and stays on CPU
when not requested. -/
theorem modelSetup_raises_iff_witness :
    (∃ e, modelSetup false true = Except.error e)
    ∧ modelSetup true true = Except.ok Device.cuda
    ∧ modelSetup true false = Except.ok Device.cpu :=
  ⟨(modelSetup_raises_iff false true).1.mpr ⟨rfl, rfl⟩,
   (modelSetup_raises_iff true true).2.1 rfl rfl,
   (modelSetup_raises_iff true false).2.2 rfl⟩

/-- C2: whenever the external evaluator's construction succeeds,
`ImageNetDataPipeline.evaluate` returns exactly the scalar the external
evaluator's `evaluate` produces on the same three arguments, the evaluator
being constructed from the pipeline's configured dataset directory and the
fixed `image_net_config` settings; the wrapper adds no computation of its
own on the result. -/
theorem evaluate_forwards (ext : Env) (p : ImageNetDataPipeline)
    (m : ModelVal) (it : Option Nat) (uc : Bool) (u : Unit)
    (h : ext.evaluatorConstructF (evalArgsOf p._config) = Except.ok u) :
    p.evaluate ext m it uc = ext.evaluateF (evalArgsOf p._config) m it uc := by
  unfold ImageNetDataPipeline.evaluate
  simp [bind, Except.bind, h]

/-- Witness for C2 at a concrete environment and pipeline. -/
theorem evaluate_forwards_witness :
    ImageNetDataPipeline.evaluate extOk { _config := cfg0 } 5 none true
      = extOk.evaluateF (evalArgsOf cfg0) 5 none true :=
  evaluate_forwards extOk { _config := cfg0 } 5 none true () rfl

/-- Counterexample to C3 as stated: the behaviour of
`ImageNetDataPipeline.evaluate` is not independent of the configuration
the instance was constructed with — two pipelines differing only in their
configured `dataset_dir`, called with equal explicit arguments in the same
external environment, invoke differently-constructed evaluators and can
return different scalars. -/
theorem evaluate_config_dependence_counterexample :
    ImageNetDataPipeline.evaluate extOk
        { _config := { dataset_dir := "a", use_cuda := false, logdir := "l" } }
        0 none false
      ≠ ImageNetDataPipeline.evaluate extOk
        { _config := { dataset_dir := "bb", use_cuda := false, logdir := "l" } }
        0 none false := by
  intro h
  simp [ImageNetDataPipeline.evaluate, extOk, evalArgsOf, bind, Except.bind] at h

/-- C3 (amended): the behaviour of `ImageNetDataPipeline.evaluate` is
determined by its explicit arguments (model, iterations, use_cuda)
together with the instance's configured `dataset_dir`: any two instances
whose configurations agree on `dataset_dir` — regardless of the rest of
their configurations — perform the same computation on equal arguments. -/
theorem evaluate_determined_by_args_and_dataset_dir (ext : Env)
    (p₁ p₂ : ImageNetDataPipeline)
    (h : p₁._config.dataset_dir = p₂._config.dataset_dir)
    (m : ModelVal) (it : Option Nat) (uc : Bool) :
    p₁.evaluate ext m it uc = p₂.evaluate ext m it uc := by
  unfold ImageNetDataPipeline.evaluate
  have harg : evalArgsOf p₁._config = evalArgsOf p₂._config := by
    simp [evalArgsOf, h]
  rw [harg]

/-- Witness for amended C3: two pipelines sharing only `dataset_dir`
(differing in `use_cuda` and `logdir`) evaluate identically. -/
theorem evaluate_determined_witness :
    ImageNetDataPipeline.evaluate extOk
        { _config := { dataset_dir := "d", use_cuda := false, logdir := "l1" } }
        7 (some 4) true
      = ImageNetDataPipeline.evaluate extOk
        { _config := { dataset_dir := "d", use_cuda := true, logdir := "l2" } }
        7 (some 4) true :=
  evaluate_determined_by_args_and_dataset_dir extOk
    { _config := { dataset_dir := "d", use_cuda := false, logdir := "l1" } }
    { _config := { dataset_dir := "d", use_cuda := true, logdir := "l2" } }
    rfl 7 (some 4) true

/-- Recognises the `correct_bias` call in a trace. -/
def isCorrectBiasEvent : Event → Bool
  | Event.correctBias _ _ _ => true
  | _ => false

/-- C10: the "Test" assignments overwrite the "Typical" ones, so
`(num_quant_samples, num_bias_correct_samples) = (1, 1)`, and in every
successful run the single `correct_bias` call receives exactly these
values. -/
theorem correctBias_called_with_test_params (ext : Env) (cfg : Config)
    (tr : List Event) (h : runTrace ext cfg = some tr) :
    biasCorrectionParams = (1, 1)
    ∧ tr.filter isCorrectBiasEvent = [Event.correctBias modelRef 1 1] := by
  refine ⟨rfl, ?_⟩
  rw [runTrace_some ext cfg tr h]
  cases hcu : cfg.use_cuda <;>
    simp [canonicalTrace, isCorrectBiasEvent, hcu, biasCorrectionParams,
      List.filter_append]

/-- Witness for C10 at a concrete environment and configuration. -/
theorem correctBias_called_with_test_params_witness :
    biasCorrectionParams = (1, 1)
    ∧ (canonicalTrace cfg0).filter isCorrectBiasEvent
        = [Event.correctBias modelRef 1 1] :=
  correctBias_called_with_test_params extOk cfg0 (canonicalTrace cfg0) rfl

/-- Recognises a model-load event. -/
def isLoadModelEvent : Event → Bool
  | Event.loadModel _ => true
  | _ => false

/-- Recognises an `equalize_model` call. -/
def isEqualizeEvent : Event → Bool
  | Event.equalize _ => true
  | _ => false

/-- Recognises a `torch.save` call, the only event that writes an
artifact (a `makeDirs` event creates a directory but writes no file). -/
def isFileWriteEvent : Event → Bool
  | Event.save _ _ => true
  | _ => false

/-- Recognises a `copy.deepcopy` of a model. -/
def isDeepcopyEvent : Event → Bool
  | Event.deepcopy _ _ => true
  | _ => false

/-- Recognises a `fold_all_batch_norms` call. -/
def isFoldBNEvent : Event → Bool
  | Event.foldBN _ => true
  | _ => false

/-- Recognises a `.to(torch.device('cuda'))` move. -/
def isToCudaEvent : Event → Bool
  | Event.toCuda _ => true
  | _ => false

/-- Recognises the events that mutate the model object behind reference
`r` in place (`fold_all_batch_norms`, `equalize_model`, `correct_bias`). -/
def mutatesRef (r : Ref) : Event → Bool
  | Event.foldBN r' => r' == r
  | Event.equalize r' => r' == r
  | Event.correctBias r' _ _ => r' == r
  | _ => false

/-- The designated top-level steps of the flow, one event per step of the
spec's arrow diagram: load, baseline evaluation, quantization-simulation
construction, encoding computation, equalization, bias correction, the
re-run of the simulation with its evaluation, and the final save. -/
def designatedSteps (cfg : Config) : List Event :=
  [Event.loadModel modelRef,
   Event.evalCall modelRef none cfg.use_cuda,
   Event.constructSim bnFoldedRef 0 false,
   Event.computeEnc 0 num_batches,
   Event.equalize modelRef,
   Event.correctBias modelRef biasCorrectionParams.1 biasCorrectionParams.2,
   Event.constructSim modelRef 2 false,
   Event.computeEnc 2 num_batches,
   Event.evalCall sim2Ref none false,
   Event.save modelRef (osPathJoin cfg.logdir "quantized_model.pth")]

/-- C5: every successful execution performs its top-level steps in the
spec's order — load, baseline evaluation, simulation construction,
encoding computation, equalization then bias correction, the re-run of the
simulation and its evaluation, and finally the save — i.e., the designated
steps form a subsequence of the trace in exactly that order. -/
theorem notebook_step_order (ext : Env) (cfg : Config) (tr : List Event)
    (h : runTrace ext cfg = some tr) :
    List.Sublist (designatedSteps cfg) tr := by
  rw [runTrace_some ext cfg tr h]
  cases hcu : cfg.use_cuda <;>
    simp only [designatedSteps, canonicalTrace, hcu, if_true, if_false,
      Bool.false_eq_true, List.append_assoc, List.cons_append,
      List.nil_append, List.singleton_append] <;>
    repeat
      first
      | exact List.nil_sublist _
      | apply List.Sublist.cons₂
      | apply List.Sublist.cons

/-- Witness for C5 at a concrete environment and configuration. -/
theorem notebook_step_order_witness :
    List.Sublist (designatedSteps cfg0) (canonicalTrace cfg0) :=
  notebook_step_order extOk cfg0 (canonicalTrace cfg0) rfl

/-- C6: the model is loaded exactly once, into the object `modelRef`, and
the equalization, bias-correction and save calls all target that same
object: no new model object ever replaces it, the transforms mutate it in
place and the final checkpoint saves it. -/
theorem model_mutated_in_place (ext : Env) (cfg : Config) (tr : List Event)
    (h : runTrace ext cfg = some tr) :
    tr.filter isLoadModelEvent = [Event.loadModel modelRef]
    ∧ tr.filter isEqualizeEvent = [Event.equalize modelRef]
    ∧ tr.filter isCorrectBiasEvent = [Event.correctBias modelRef 1 1]
    ∧ tr.filter isFileWriteEvent
        = [Event.save modelRef (osPathJoin cfg.logdir "quantized_model.pth")] := by
  rw [runTrace_some ext cfg tr h]
  cases hcu : cfg.use_cuda <;>
    simp [canonicalTrace, hcu, isLoadModelEvent, isEqualizeEvent,
      isCorrectBiasEvent, isFileWriteEvent, biasCorrectionParams]

/-- Witness for C6 at a concrete environment and configuration. -/
theorem model_mutated_in_place_witness :
    (canonicalTrace cfg0).filter isLoadModelEvent = [Event.loadModel modelRef]
    ∧ (canonicalTrace cfg0).filter isEqualizeEvent = [Event.equalize modelRef]
    ∧ (canonicalTrace cfg0).filter isCorrectBiasEvent
        = [Event.correctBias modelRef 1 1]
    ∧ (canonicalTrace cfg0).filter isFileWriteEvent
        = [Event.save modelRef (osPathJoin cfg0.logdir "quantized_model.pth")] :=
  model_mutated_in_place extOk cfg0 (canonicalTrace cfg0) rfl

/-- C7: the run writes exactly one artifact, the checkpoint at
`os.path.join(config['logdir'], 'quantized_model.pth')`, and the very
first step of the run is `os.makedirs(config['logdir'], exist_ok=True)`,
so the checkpoint's parent directory is created before any write. -/
theorem single_artifact_write (ext : Env) (cfg : Config) (tr : List Event)
    (h : runTrace ext cfg = some tr) :
    tr.head? = some (Event.makeDirs cfg.logdir true)
    ∧ tr.filter isFileWriteEvent
        = [Event.save modelRef (osPathJoin cfg.logdir "quantized_model.pth")] := by
  rw [runTrace_some ext cfg tr h]
  cases hcu : cfg.use_cuda <;>
    simp [canonicalTrace, hcu, isFileWriteEvent]

/-- Witness for C7 at a concrete environment and configuration. -/
theorem single_artifact_write_witness :
    (canonicalTrace cfg0).head? = some (Event.makeDirs cfg0.logdir true)
    ∧ (canonicalTrace cfg0).filter isFileWriteEvent
        = [Event.save modelRef (osPathJoin cfg0.logdir "quantized_model.pth")] :=
  single_artifact_write extOk cfg0 (canonicalTrace cfg0) rfl

/-- C8: every move to accelerator memory is gated by `config['use_cuda']`:
the trace contains CUDA moves exactly when the flag is set, and then
exactly four of them — the model and each of the three `dummy_input`
tensors; with the flag unset there are none, and no other
resource-management events exist. -/
theorem cuda_moves_gated (ext : Env) (cfg : Config) (tr : List Event)
    (h : runTrace ext cfg = some tr) :
    tr.filter isToCudaEvent =
      (if cfg.use_cuda then
        [Event.toCuda (ObjId.modelObj modelRef),
         Event.toCuda (ObjId.tensorObj 0),
         Event.toCuda (ObjId.tensorObj 1),
         Event.toCuda (ObjId.tensorObj 2)]
       else []) := by
  rw [runTrace_some ext cfg tr h]
  cases hcu : cfg.use_cuda <;>
    simp [canonicalTrace, hcu, isToCudaEvent]

/-- Witness for C8 at a concrete environment and configuration (the flag
is set in `cfg0`, so all four moves occur). -/
theorem cuda_moves_gated_witness :
    (canonicalTrace cfg0).filter isToCudaEvent =
      (if cfg0.use_cuda then
        [Event.toCuda (ObjId.modelObj modelRef),
         Event.toCuda (ObjId.tensorObj 0),
         Event.toCuda (ObjId.tensorObj 1),
         Event.toCuda (ObjId.tensorObj 2)]
       else []) :=
  cuda_moves_gated extOk cfg0 (canonicalTrace cfg0) rfl

/-- C9: batch-norm folding for the baseline quantization-simulation stage
is applied to the deep copy (`BN_folded_model`), a distinct object from
the original model; the only in-place mutations of the original model
object are, in order, `equalize_model` and then `correct_bias`, so the
baseline stage leaves the original unchanged and the first mutation of the
original is the later `equalize_model` call. -/
theorem bn_folding_on_deepcopy (ext : Env) (cfg : Config) (tr : List Event)
    (h : runTrace ext cfg = some tr) :
    tr.filter isDeepcopyEvent = [Event.deepcopy modelRef bnFoldedRef]
    ∧ tr.filter isFoldBNEvent = [Event.foldBN bnFoldedRef]
    ∧ bnFoldedRef ≠ modelRef
    ∧ tr.filter (mutatesRef modelRef)
        = [Event.equalize modelRef, Event.correctBias modelRef 1 1] := by
  rw [runTrace_some ext cfg tr h]
  cases hcu : cfg.use_cuda <;>
    simp [canonicalTrace, hcu, isDeepcopyEvent, isFoldBNEvent, mutatesRef,
      modelRef, bnFoldedRef, biasCorrectionParams]

/-- Witness for C9 at a concrete environment and configuration. -/
theorem bn_folding_on_deepcopy_witness :
    (canonicalTrace cfg0).filter isDeepcopyEvent
        = [Event.deepcopy modelRef bnFoldedRef]
    ∧ (canonicalTrace cfg0).filter isFoldBNEvent = [Event.foldBN bnFoldedRef]
    ∧ bnFoldedRef ≠ modelRef
    ∧ (canonicalTrace cfg0).filter (mutatesRef modelRef)
        = [Event.equalize modelRef, Event.correctBias modelRef 1 1] :=
  bn_folding_on_deepcopy extOk cfg0 (canonicalTrace cfg0) rfl

/-- `e` is an exception some external callee of the notebook raised: one
of the external calls (directory creation, evaluator construction or
evaluation, data-loader construction, batch-norm folding, simulation
construction, encoding computation, equalization, bias correction,
checkpoint saving) returns exactly this error at some arguments. -/
def raisableBy (ext : Env) (e : Err) : Prop :=
  (∃ p, ext.makedirsF p = Except.error e)
  ∨ (∃ a, ext.evaluatorConstructF a = Except.error e)
  ∨ (∃ a m it uc, ext.evaluateF a m it uc = Except.error e)
  ∨ (∃ d, ext.dataLoaderF d = Except.error e)
  ∨ (∃ m, ext.foldF m = Except.error e)
  ∨ (∃ m, ext.simModelF m = Except.error e)
  ∨ (∃ m, ext.computeEncF m = Except.error e)
  ∨ (∃ m, ext.equalizeF m = Except.error e)
  ∨ (∃ m a b, ext.correctBiasF m a b = Except.error e)
  ∨ (∃ m p, ext.saveF m p = Except.error e)

/-- The only exception the guard itself raises is the CUDA-unavailable one. -/
theorem modelSetup_error (ca uc : Bool) (e : Err)
    (h : modelSetup ca uc = Except.error e) : e = cudaUnavailableMsg := by
  cases ca <;> cases uc <;> simp [modelSetup] at h <;> simp [h]

/-- An error from `os.makedirs` is an external error. -/
theorem raisable_of_makedirs (ext : Env) (p : String) (e : Err)
    (h : ext.makedirsF p = Except.error e) : raisableBy ext e :=
  Or.inl ⟨p, h⟩

/-- An error escaping `ImageNetDataPipeline.evaluate` is an external
error: either the evaluator's construction or its evaluation raised it. -/
theorem raisable_of_pipeline_evaluate (ext : Env) (p : ImageNetDataPipeline)
    (m : ModelVal) (it : Option Nat) (uc : Bool) (e : Err)
    (h : p.evaluate ext m it uc = Except.error e) : raisableBy ext e := by
  unfold ImageNetDataPipeline.evaluate at h
  simp only [bind, Except.bind] at h
  cases hc : ext.evaluatorConstructF (evalArgsOf p._config) with
  | error err =>
    rw [hc] at h
    simp at h
    subst h
    exact Or.inr (Or.inl ⟨_, hc⟩)
  | ok u =>
    rw [hc] at h
    exact Or.inr (Or.inr (Or.inl ⟨_, m, it, uc, h⟩))

/-- An error from `ImageNetDataPipeline.data_loader` is an external error. -/
theorem raisable_of_data_loader (ext : Env) (p : ImageNetDataPipeline) (e : Err)
    (h : p.data_loader ext = Except.error e) : raisableBy ext e :=
  Or.inr (Or.inr (Or.inr (Or.inl ⟨_, h⟩)))

/-- An error from `fold_all_batch_norms` is an external error. -/
theorem raisable_of_fold (ext : Env) (m : ModelVal) (e : Err)
    (h : ext.foldF m = Except.error e) : raisableBy ext e :=
  Or.inr (Or.inr (Or.inr (Or.inr (Or.inl ⟨m, h⟩))))

/-- An error from `QuantizationSimModel` construction is an external error. -/
theorem raisable_of_sim (ext : Env) (m : ModelVal) (e : Err)
    (h : ext.simModelF m = Except.error e) : raisableBy ext e :=
  Or.inr (Or.inr (Or.inr (Or.inr (Or.inr (Or.inl ⟨m, h⟩)))))

/-- An error from `compute_encodings` is an external error. -/
theorem raisable_of_computeEnc (ext : Env) (m : ModelVal) (e : Err)
    (h : ext.computeEncF m = Except.error e) : raisableBy ext e :=
  Or.inr (Or.inr (Or.inr (Or.inr (Or.inr (Or.inr (Or.inl ⟨m, h⟩))))))

/-- An error from `equalize_model` is an external error. -/
theorem raisable_of_equalize (ext : Env) (m : ModelVal) (e : Err)
    (h : ext.equalizeF m = Except.error e) : raisableBy ext e :=
  Or.inr (Or.inr (Or.inr (Or.inr (Or.inr (Or.inr (Or.inr (Or.inl ⟨m, h⟩)))))))

/-- An error from `correct_bias` is an external error. -/
theorem raisable_of_correctBias (ext : Env) (m : ModelVal) (a b : Nat) (e : Err)
    (h : ext.correctBiasF m a b = Except.error e) : raisableBy ext e :=
  Or.inr (Or.inr (Or.inr (Or.inr (Or.inr (Or.inr (Or.inr (Or.inr
    (Or.inl ⟨m, a, b, h⟩))))))))

/-- An error from `torch.save` is an external error. -/
theorem raisable_of_save (ext : Env) (m : ModelVal) (p : String) (e : Err)
    (h : ext.saveF m p = Except.error e) : raisableBy ext e :=
  Or.inr (Or.inr (Or.inr (Or.inr (Or.inr (Or.inr (Or.inr (Or.inr
    (Or.inr ⟨m, p, h⟩))))))))

/-- C4: apart from the `use_cuda` guard, the notebook performs no error
handling: when a run raises an exception `e`, either `e` is the guard's
own CUDA-unavailable exception or `e` is exactly an exception raised by
one of the external callees, unmodified — the notebook contains no
catching, wrapping or substitution of exceptions. -/
theorem exceptions_propagate_unmodified (ext : Env) (cfg : Config) (e : Err)
    (h : run ext cfg = Except.error e) :
    e = cudaUnavailableMsg ∨ raisableBy ext e := by
  unfold run at h
  simp only [bind, Except.bind] at h
  repeat' split at h
  all_goals try exact Except.noConfusion h
  all_goals injection h with h
  all_goals subst h
  all_goals
    first
    | (left; apply modelSetup_error; assumption)
    | (right; apply raisable_of_makedirs; assumption)
    | (right; apply raisable_of_pipeline_evaluate; assumption)
    | (right; apply raisable_of_data_loader; assumption)
    | (right; apply raisable_of_fold; assumption)
    | (right; apply raisable_of_sim; assumption)
    | (right; apply raisable_of_computeEnc; assumption)
    | (right; apply raisable_of_equalize; assumption)
    | (right; apply raisable_of_correctBias; assumption)
    | (right; apply raisable_of_save; assumption)

/-- A concrete environment identical to `extOk` except that bias
correction raises. -/
def extBiasFails : Env :=
  { extOk with correctBiasF := fun _ _ _ => Except.error "bias boom" }

/-- Witness for C4: in a concrete environment whose `correct_bias` raises,
the run raises, and the theorem places the exception among the external
callees' exceptions. -/
theorem exceptions_propagate_unmodified_witness :
    "bias boom" = cudaUnavailableMsg ∨ raisableBy extBiasFails "bias boom" :=
  exceptions_propagate_unmodified extBiasFails cfg0 "bias boom" rfl
